import Mathlib

/-
Verification of the py-lab session-recording pipeline against its
specification.  The model below is a shallow embedding of
src/data_recorder.py (class DataRecorder): Python floats are modelled as
exact rationals, Python dicts as insertion-ordered association lists, and
the mutable recorder object as an explicit state value threaded through the
methods.  Wall-clock reads (time.time(), datetime.now().isoformat()), the
generated sink file name and the success of opening the cv2.VideoWriter are
passed in as parameters; cv2.resize is an external library call and is
passed in as an opaque function argument.  The frame payload type is a type
parameter F, since no verified property inspects pixel data.
-/

set_option autoImplicit false

namespace PyLab

/-- A Python value as it can appear in event payloads and in the session
dict handed to prepare_for_export: strings, plain ints/floats/bools, None,
numpy scalar and array wrappers, lists, and dicts (insertion-ordered
association lists). -/
inductive PyVal where
  | str : String → PyVal
  | int : Int → PyVal
  | float : Rat → PyVal
  | bool : Bool → PyVal
  | pynone : PyVal
  | npInt : Int → PyVal
  | npFloat : Rat → PyVal
  | npArray : List PyVal → PyVal
  | list : List PyVal → PyVal
  | dict : List (String × PyVal) → PyVal

/-- Lookup of a key in a Python dict modelled as an association list
(Python dicts have unique keys, so the first match is the only one). -/
def dictFind : List (String × PyVal) → String → Option PyVal
  | [], _ => Option.none
  | (k2, v) :: rest, k =>
      if k2 = k then Option.some v else dictFind rest k

/-- Assignment d[k] = v on a Python dict: updates the value in place when
the key exists (keeping its position), appends the pair otherwise. -/
def dictSet (m : List (String × PyVal)) (k : String) (v : PyVal) :
    List (String × PyVal) :=
  match m with
  | [] => [(k, v)]
  | (k2, v2) :: rest =>
      if k2 = k then (k2, v) :: rest else (k2, v2) :: dictSet rest k v

/-- Python d.get(k, default). -/
def pyGet (m : List (String × PyVal)) (k : String) (dflt : PyVal) : PyVal :=
  match dictFind m k with
  | Option.some v => v
  | Option.none => dflt

/-- Python len(v) for the sized values; None models the TypeError raised on
unsized values. -/
def pyLen : PyVal → Option Nat
  | .str s => Option.some s.length
  | .npArray l => Option.some l.length
  | .list l => Option.some l.length
  | .dict kvs => Option.some kvs.length
  | _ => Option.none

mutual

/-- Helper convert_numpy of DataRecorder.prepare_for_export: numpy arrays
become plain lists (ndarray.tolist() converts the contained numpy scalars
to plain scalars, modelled by the recursive conversion of the elements),
numpy integers/floats become plain ints/floats, and dicts and lists are
converted recursively; everything else is returned unchanged. -/
def convert_numpy : PyVal → PyVal
  | .npArray l => .list (convert_numpy_list l)
  | .npInt n => .int n
  | .npFloat q => .float q
  | .dict kvs => .dict (convert_numpy_kvs kvs)
  | .list l => .list (convert_numpy_list l)
  | v => v

/-- Elementwise convert_numpy over a Python list. -/
def convert_numpy_list : List PyVal → List PyVal
  | [] => []
  | v :: rest => convert_numpy v :: convert_numpy_list rest

/-- Valuewise convert_numpy over a Python dict. -/
def convert_numpy_kvs : List (String × PyVal) → List (String × PyVal)
  | [] => []
  | (k, v) :: rest => (k, convert_numpy v) :: convert_numpy_kvs rest

end

mutual

/-- Observation used to state export sanitization: a value contains no
numpy wrapper anywhere inside it. -/
def numpy_free : PyVal → Bool
  | .npInt _ => false
  | .npFloat _ => false
  | .npArray _ => false
  | .list l => numpy_free_list l
  | .dict kvs => numpy_free_kvs kvs
  | _ => true

/-- numpy_free on every element of a list. -/
def numpy_free_list : List PyVal → Bool
  | [] => true
  | v :: rest => numpy_free v && numpy_free_list rest

/-- numpy_free on every value of a dict. -/
def numpy_free_kvs : List (String × PyVal) → Bool
  | [] => true
  | (_, v) :: rest => numpy_free v && numpy_free_kvs rest

end

/-- One peak record produced by DataRecorder._find_emotion_peaks:
{'index': i, 'value': data[i], 'timestamp': timestamps[i] or None}. -/
structure Peak where
  index : Nat
  value : Rat
  timestamp : Option Rat

/-- DataRecorder._find_emotion_peaks (data_recorder.py:322-339): series
shorter than 3 yield no peaks; otherwise indices i in range(1, len-1) are
kept when data[i] > data[i-1], data[i] > data[i+1] and data[i] > min_height
(the Python default for min_height is 0.5); the reported timestamp is
timestamps[i] when i < len(timestamps) and None otherwise.  (The session's
timestamps list, read from self.session_data in the source, is passed as an
argument here.  EmotionAnalyzer._find_peaks is the same procedure.) -/
def find_emotion_peaks (emotion_data : List Rat) (timestamps : List Rat)
    (min_height : Rat) : List Peak :=
  if emotion_data.length < 3 then []
  else
    ((List.range (emotion_data.length - 2)).map (· + 1)).filterMap (fun i =>
      if emotion_data.getD i 0 > emotion_data.getD (i - 1) 0 ∧
         emotion_data.getD i 0 > emotion_data.getD (i + 1) 0 ∧
         emotion_data.getD i 0 > min_height then
        Option.some ⟨i, emotion_data.getD i 0,
          if i < timestamps.length then Option.some (timestamps.getD i 0)
          else Option.none⟩
      else Option.none)

/-- One gaze point as _generate_gaze_heatmap reads it: coordinates plus the
optional 'confidence' entry (point.get('confidence', 1.0) defaults a missing
confidence to 1). -/
structure GazePoint where
  x : Rat
  y : Rat
  confidence : Option Rat

/-- One output cell of the heatmap: {'x': grid_x, 'y': grid_y, 'weight': w}. -/
structure HeatmapCell where
  x : Int
  y : Int
  weight : Rat

/-- Python heatmap_grid[key] = heatmap_grid.get(key, 0) + weight on an
insertion-ordered dict: the first occurrence of a key appends it, later
occurrences add to its value in place. -/
def gridUpsert (m : List ((Int × Int) × Rat)) (k : Int × Int) (w : Rat) :
    List ((Int × Int) × Rat) :=
  match m with
  | [] => [(k, w)]
  | (k2, w2) :: rest =>
      if k2 = k then (k2, w2 + w) :: rest else (k2, w2) :: gridUpsert rest k w

/-- Cell key of a point: grid_x = int(x // grid_size) * grid_size and
likewise for y.  Python's // on floats is the mathematical floor of the
quotient, and int() of that integral float is the same integer, so the key
is (floor(x/g)*g, floor(y/g)*g).  The source builds the string key
"{grid_x},{grid_y}" and parses it back with split/int when emitting cells;
that round trip is the identity on integer pairs, so the key is modelled
directly as the pair. -/
def gridKey (grid_size : Int) (p : GazePoint) : Int × Int :=
  (Rat.floor (p.x / (grid_size : Rat)) * grid_size,
   Rat.floor (p.y / (grid_size : Rat)) * grid_size)

/-- DataRecorder._generate_gaze_heatmap (data_recorder.py:341-366): bin
every gaze point into its cell, accumulating point.get('confidence', 1.0),
then emit the non-empty cells in dict (first-insertion) order.  The Python
default for grid_size is 50. -/
def generate_gaze_heatmap (gaze_points : List GazePoint) (grid_size : Int) :
    List HeatmapCell :=
  if gaze_points.isEmpty then []
  else
    (gaze_points.foldl
        (fun m p => gridUpsert m (gridKey grid_size p) (p.confidence.getD 1))
        []).map (fun kv => ⟨kv.1.1, kv.1.2, kv.2⟩)

/-- Dict lookup on the intermediate heatmap_grid association list. -/
def gridFind : List ((Int × Int) × Rat) → (Int × Int) → Option Rat
  | [], _ => Option.none
  | (k2, w2) :: rest, k =>
      if k2 = k then Option.some w2 else gridFind rest k

/-- Observation: the weight the heatmap reports for cell k, if any. -/
def cellWeightOf : List HeatmapCell → (Int × Int) → Option Rat
  | [], _ => Option.none
  | c :: rest, k =>
      if (c.x, c.y) = k then Option.some c.weight else cellWeightOf rest k

/-- Observation: total weight (defaulted confidence) of the points falling
in cell k. -/
def sumWeights (grid_size : Int) : List GazePoint → (Int × Int) → Rat
  | [], _ => 0
  | p :: rest, k =>
      (if gridKey grid_size p = k then p.confidence.getD 1 else 0) +
        sumWeights grid_size rest k

/-- The emotions argument of add_frame_data: a dict optionally carrying an
'emotions' sub-dict and an 'action_units' sub-dict, each a map from channel
label to numeric value. -/
structure EmotionReading where
  emotions : Option (List (String × Rat))
  action_units : Option (List (String × Rat))

/-- Python truthiness of the emotions dict ("if emotions:"): it is truthy
exactly when it has at least one key. -/
def EmotionReading.truthy (e : EmotionReading) : Bool :=
  e.emotions.isSome || e.action_units.isSome

/-- One entry of session_data['emotions']: timestamp and frame_number plus
the merged channel values of the reading.  (dict.update merges the two
sub-dicts into the entry; the analyzers' channel labels are emotion names
and AU names, disjoint from each other and from 'timestamp'/'frame_number',
so the merge is concatenation.) -/
structure EmotionEntry where
  timestamp : Rat
  frame_number : Nat
  channels : List (String × Rat)

/-- One entry of session_data['gaze_points']. -/
structure GazeEntry where
  timestamp : Rat
  frame_number : Nat
  x : Rat
  y : Rat
  confidence : Rat

/-- One entry of session_data['game_events']. -/
structure GameEvent where
  timestamp : Rat
  type : String
  data : List (String × PyVal)
  frame_number : Nat

/-- One entry of session_data['video_frames']: relative timestamp plus the
retained (resized) frame copy. -/
structure VideoFrameEntry (F : Type) where
  timestamp : Rat
  frame : F

/-- The session_data['session_info'] dict; every field is absent (None)
until the corresponding assignment runs. -/
structure SessionInfo where
  start_time : Option Rat
  start_datetime : Option String
  session_id : Option String
  end_time : Option Rat
  duration : Option Rat
  end_datetime : Option String
  video_file : Option String

/-- The empty session_info dict. -/
def SessionInfo.empty : SessionInfo :=
  ⟨Option.none, Option.none, Option.none, Option.none, Option.none,
   Option.none, Option.none⟩

/-- The self.session_data dict of DataRecorder. -/
structure SessionData (F : Type) where
  session_info : SessionInfo
  video_frames : List (VideoFrameEntry F)
  emotions : List EmotionEntry
  gaze_points : List GazeEntry
  game_events : List GameEvent
  timestamps : List Rat
  frame_count : Nat

/-- The mutable attributes of a DataRecorder object.  The video writer is
modelled as the list of frames written so far when open, None when closed
or never opened. -/
structure RecorderState (F : Type) where
  session_active : Bool
  session_start_time : Option Rat
  session_data : SessionData F
  video_writer : Option (List F)
  video_filename : Option String
  frame_size : Nat × Nat
  fps : Nat
  export_video : Bool
  export_raw_frames : Bool
  max_frames_in_memory : Nat

/-- DataRecorder.__init__ (data_recorder.py:13-35). -/
def DataRecorder_init (F : Type) : RecorderState F :=
  { session_active := false
    session_start_time := Option.none
    session_data := ⟨SessionInfo.empty, [], [], [], [], [], 0⟩
    video_writer := Option.none
    video_filename := Option.none
    frame_size := (640, 480)
    fps := 30
    export_video := true
    export_raw_frames := false
    max_frames_in_memory := 1000 }

/-- Python truthiness of self.session_start_time: None and 0.0 are falsy. -/
def truthyRat : Option Rat → Bool
  | Option.none => false
  | Option.some q => decide (q ≠ 0)

/-- Python int() truncates toward zero. -/
def pyTrunc (q : Rat) : Int :=
  if 0 ≤ q then Rat.floor q else Rat.ceil q

/-- DataRecorder.start_session (data_recorder.py:37-67) together with
setup_video_recording (91-115): activate the session, reset session_data,
stamp start_time/start_datetime/session_id, and, when export_video is set,
record the generated sink file name and open the writer.  nowTime models
time.time(), nowStr models datetime.now().isoformat(), fname the generated
"recordings/session_<...>.mp4" name, and sink_ok whether creating the
cv2.VideoWriter succeeded (on failure the writer stays None and recording
degrades to in-memory only).  Returns the Python method's boolean result,
which is True on this non-raising path. -/
def start_session {F : Type} (st : RecorderState F) (nowTime : Rat)
    (nowStr : String) (fname : String) (sink_ok : Bool) :
    RecorderState F × Bool :=
  let st := { st with
    session_active := true
    session_start_time := Option.some nowTime
    session_data := {
      session_info := { SessionInfo.empty with
        start_time := Option.some nowTime
        start_datetime := Option.some nowStr
        session_id := Option.some ("session_" ++ toString (pyTrunc nowTime)) }
      video_frames := []
      emotions := []
      gaze_points := []
      game_events := []
      timestamps := []
      frame_count := 0 } }
  let st :=
    if st.export_video then
      { st with
        video_filename := Option.some fname
        video_writer := if sink_ok then Option.some [] else Option.none }
    else st
  (st, true)

/-- DataRecorder.stop_session (data_recorder.py:69-89): clear the active
flag; when session_start_time is truthy stamp end_time, duration and
end_datetime; release the video writer if open, recording the video file
name in session_info when the filename is truthy; finally return a shallow
copy of session_data. -/
def stop_session {F : Type} (st : RecorderState F) (nowTime : Rat)
    (nowStr : String) : RecorderState F × SessionData F :=
  let st := { st with session_active := false }
  let st :=
    if truthyRat st.session_start_time then
      { st with session_data.session_info.end_time := Option.some nowTime
                session_data.session_info.duration :=
                  Option.some (nowTime - st.session_start_time.getD 0)
                session_data.session_info.end_datetime := Option.some nowStr }
    else st
  let st :=
    match st.video_writer with
    | Option.some _ =>
        let st := { st with video_writer := Option.none }
        match st.video_filename with
        | Option.some f =>
            if f = "" then st
            else { st with session_data.session_info.video_file := Option.some f }
        | Option.none => st
    | Option.none => st
  (st, st.session_data)

/-- Relative timestamp computed by the append methods:
timestamp - self.session_start_time if self.session_start_time else 0. -/
def relative_ts (start : Option Rat) (t : Rat) : Rat :=
  if truthyRat start then t - start.getD 0 else 0

/-- DataRecorder.add_frame_data (data_recorder.py:117-180): ignored while
no session is active; otherwise append the relative timestamp, increment
frame_count, then (when a frame is supplied) resize it, write it to the
video sink if open, and retain it in memory only when export_raw_frames is
set and the in-memory list is below max_frames_in_memory; then append an
emotions entry when the emotions dict is truthy and a gaze entry when a
gaze point is supplied, each tagged with the already-incremented
frame_count.  resize stands for cv2.resize. -/
def add_frame_data {F : Type} (resize : F → Nat × Nat → F)
    (st : RecorderState F) (timestamp : Rat) (frame : Option F)
    (emotions : Option EmotionReading) (gaze_point : Option (Rat × Rat)) :
    RecorderState F :=
  if ¬ st.session_active then st
  else
    let rel := relative_ts st.session_start_time timestamp
    let st := { st with
      session_data.timestamps := st.session_data.timestamps ++ [rel]
      session_data.frame_count := st.session_data.frame_count + 1 }
    let st :=
      match frame with
      | Option.none => st
      | Option.some f =>
          let frame_resized := resize f st.frame_size
          let st :=
            match st.video_writer with
            | Option.some w =>
                { st with video_writer := Option.some (w ++ [frame_resized]) }
            | Option.none => st
          if st.export_raw_frames ∧
              st.session_data.video_frames.length < st.max_frames_in_memory then
            { st with session_data.video_frames :=
                st.session_data.video_frames ++ [⟨rel, frame_resized⟩] }
          else st
    let st :=
      match emotions with
      | Option.some e =>
          if e.truthy then
            { st with session_data.emotions := st.session_data.emotions ++
                [⟨rel, st.session_data.frame_count,
                  e.emotions.getD [] ++ e.action_units.getD []⟩] }
          else st
      | Option.none => st
    match gaze_point with
    | Option.some g =>
        { st with session_data.gaze_points := st.session_data.gaze_points ++
            [⟨rel, st.session_data.frame_count, g.1, g.2, 1⟩] }
    | Option.none => st

/-- DataRecorder.add_game_event (data_recorder.py:182-200): ignored while
no session is active; otherwise append the event with its own relative
timestamp and the current frame_count. -/
def add_game_event {F : Type} (st : RecorderState F) (timestamp : Rat)
    (event_type : String) (event_data : List (String × PyVal)) :
    RecorderState F :=
  if ¬ st.session_active then st
  else
    let rel := relative_ts st.session_start_time timestamp
    { st with session_data.game_events := st.session_data.game_events ++
        [⟨rel, event_type, event_data, st.session_data.frame_count⟩] }

/-- One add_frame_data call's arguments during a session. -/
structure FrameCall (F : Type) where
  timestamp : Rat
  frame : Option F
  emotions : Option EmotionReading
  gaze_point : Option (Rat × Rat)

/-- A sequence of add_frame_data calls applied in order. -/
def run_frame_calls {F : Type} (resize : F → Nat × Nat → F)
    (st : RecorderState F) (calls : List (FrameCall F)) : RecorderState F :=
  calls.foldl
    (fun s c => add_frame_data resize s c.timestamp c.frame c.emotions c.gaze_point)
    st

/-- One entry of the score_progression series. -/
structure ScoreEntry where
  timestamp : Rat
  score : PyVal

/-- One entry of the level_changes series. -/
structure LevelChange where
  timestamp : Rat
  from_level : PyVal
  to_level : PyVal

/-- The dict returned by _calculate_game_stats for a non-empty event list. -/
structure GameStats where
  total_events : Nat
  event_types : List (String × Nat)
  score_progression : List ScoreEntry
  level_changes : List LevelChange

/-- The event-type list the score-progression loop matches against. -/
def scoreTypes : List String :=
  ["score_update", "target_hit", "flappy_bird_score_update"]

/-- Python stats['event_types'][t] = stats['event_types'].get(t, 0) + 1. -/
def countUpsert (m : List (String × Nat)) (k : String) : List (String × Nat) :=
  match m with
  | [] => [(k, 1)]
  | (k2, n) :: rest =>
      if k2 = k then (k2, n + 1) :: rest else (k2, n) :: countUpsert rest k

/-- DataRecorder._calculate_game_stats (data_recorder.py:284-320): empty
event list gives the empty dict (modelled as None); otherwise count events
by type, collect a score entry (event['data'].get('score', 0)) for every
event whose type is one of scoreTypes, and a level-change entry for every
'difficulty_change' event, each series in original order. -/
def calculate_game_stats (events : List GameEvent) : Option GameStats :=
  if events.isEmpty then Option.none
  else Option.some
    { total_events := events.length
      event_types := events.foldl (fun m e => countUpsert m e.type) []
      score_progression := events.foldl
        (fun acc e =>
          if scoreTypes.contains e.type then
            acc ++ [⟨e.timestamp, pyGet e.data "score" (PyVal.int 0)⟩]
          else acc)
        []
      level_changes := events.foldl
        (fun acc e =>
          if e.type = "difficulty_change" then
            acc ++ [⟨e.timestamp, pyGet e.data "from" (PyVal.int 0),
                     pyGet e.data "to" (PyVal.int 0)⟩]
          else acc)
        [] }

/-- Python isinstance(v, (int, float)) for payload values (a Python bool is
an int). -/
def isNumericPyVal : PyVal → Bool
  | .int _ => true
  | .float _ => true
  | .bool _ => true
  | .npInt _ => true
  | .npFloat _ => true
  | _ => false

/-- Spec-side series for claim C6, following the specification's words: one
entry (timestamp, score) for exactly those events whose payload carries a
numeric score field, in original order.  This definition exists only to be
compared with the source-translated calculate_game_stats. -/
def score_progression_per_spec (events : List GameEvent) : List ScoreEntry :=
  (events.filter (fun e =>
      match dictFind e.data "score" with
      | Option.some v => isNumericPyVal v
      | Option.none => false)).map
    (fun e => ⟨e.timestamp, pyGet e.data "score" (PyVal.int 0)⟩)

/-- DataRecorder.prepare_for_export (data_recorder.py:368-390): shallow-copy
the dict, replace a present 'video_frames' value by the placeholder string
"Removed <len> frames to reduce file size", and convert numpy values
recursively.  Python's len() raises on unsized values, modelled by a None
result; on every session record video_frames is a list, so the call
succeeds.  The input dict is never written: the assignment lands on the
copy, and convert_numpy builds fresh dicts and lists, which the value
semantics of this embedding reflects by construction. -/
def prepare_for_export (data : List (String × PyVal)) :
    Option (List (String × PyVal)) :=
  match dictFind data "video_frames" with
  | Option.some v =>
      match pyLen v with
      | Option.some n =>
          Option.some (convert_numpy_kvs (dictSet data "video_frames"
            (.str ("Removed " ++ toString n ++ " frames to reduce file size"))))
      | Option.none => Option.none
  | Option.none => Option.some (convert_numpy_kvs data)

/-- Membership characterization of _find_emotion_peaks: a peak with index i
is produced exactly when both neighbors exist and data[i] strictly exceeds
both of them and the threshold.  (When the series is shorter than 3 the
right side is unsatisfiable, matching the early return.) -/
theorem mem_find_emotion_peaks (data ts : List Rat) (h : Rat) (i : Nat) :
    (∃ p ∈ find_emotion_peaks data ts h, p.index = i) ↔
      (1 ≤ i ∧ i + 1 < data.length ∧
       data.getD i 0 > data.getD (i - 1) 0 ∧
       data.getD i 0 > data.getD (i + 1) 0 ∧
       data.getD i 0 > h) := by
  by_cases hlen : data.length < 3
  · rw [find_emotion_peaks, if_pos hlen]
    simp only [List.not_mem_nil, false_and, exists_false, false_iff]
    rintro ⟨h1, h2, -⟩
    omega
  · rw [find_emotion_peaks, if_neg hlen]
    simp only [List.mem_filterMap, List.mem_map, List.mem_range]
    constructor
    · rintro ⟨p, ⟨a, ⟨j, hj, rfl⟩, hfa⟩, rfl⟩
      split at hfa
      · rename_i hcond
        cases hfa
        exact ⟨(by omega : 1 ≤ j + 1), (by omega : j + 1 + 1 < data.length),
          hcond.1, hcond.2.1, hcond.2.2⟩
      · cases hfa
    · rintro ⟨h1, h2, hc1, hc2, hc3⟩
      refine ⟨⟨i, data.getD i 0,
        if i < ts.length then Option.some (ts.getD i 0) else Option.none⟩,
        ⟨i, ⟨i - 1, by omega, by omega⟩, ?_⟩, rfl⟩
      rw [if_pos ⟨hc1, hc2, hc3⟩]

/-- Every produced peak reports timestamps[index] when the index is in
range and None otherwise. -/
theorem find_emotion_peaks_timestamp (data ts : List Rat) (h : Rat) :
    ∀ p ∈ find_emotion_peaks data ts h,
      p.timestamp =
        if p.index < ts.length then Option.some (ts.getD p.index 0)
        else Option.none := by
  intro p hp
  rw [find_emotion_peaks] at hp
  split at hp
  · cases hp
  · rw [List.mem_filterMap] at hp
    obtain ⟨a, _, hfa⟩ := hp
    split at hfa
    · cases hfa
      rfl
    · cases hfa

/-- Claim C2: peak detection returns exactly the interior indices whose
value strictly exceeds both neighbors and the minimum-height threshold;
series shorter than 3 samples yield no peaks; on the series
[0, 0.2, 0.8, 0.3, 0.9, 0.95, 0.4] with threshold 0.5 the peaks are exactly
at indices 2 (value 0.8) and 5 (value 0.95); and a peak's timestamp is None
when its index is not below the length of the timestamp series. -/
theorem C2_find_peaks_characterization :
    (∀ (data ts : List Rat) (h : Rat) (i : Nat),
        (∃ p ∈ find_emotion_peaks data ts h, p.index = i) ↔
          (1 ≤ i ∧ i + 1 < data.length ∧
           data.getD i 0 > data.getD (i - 1) 0 ∧
           data.getD i 0 > data.getD (i + 1) 0 ∧
           data.getD i 0 > h))
    ∧ (∀ (data ts : List Rat) (h : Rat),
        data.length < 3 → find_emotion_peaks data ts h = [])
    ∧ (∀ (data ts : List Rat) (h : Rat), ∀ p ∈ find_emotion_peaks data ts h,
        ts.length ≤ p.index → p.timestamp = Option.none)
    ∧ find_emotion_peaks [0, 0.2, 0.8, 0.3, 0.9, 0.95, 0.4]
        [10, 11, 12, 13, 14, 15, 16] 0.5 =
        [⟨2, 0.8, Option.some 12⟩, ⟨5, 0.95, Option.some 15⟩] := by
  refine ⟨mem_find_emotion_peaks, ?_, ?_, ?_⟩
  · intro data ts h hlen
    rw [find_emotion_peaks, if_pos hlen]
  · intro data ts h p hp hts
    rw [find_emotion_peaks_timestamp data ts h p hp, if_neg (by omega)]
  · norm_num [find_emotion_peaks, List.range_succ, List.filterMap_cons, List.getD]

/-- Witness for C2: the characterization and the short-series clause applied
at concrete inputs. -/
theorem C2_witness :
    (∃ p ∈ find_emotion_peaks [0, 1, 0] [] (1/2 : Rat), p.index = 1) ∧
    find_emotion_peaks [1, 2] [] (0 : Rat) = [] := by
  constructor
  · exact (C2_find_peaks_characterization.1 [0, 1, 0] [] (1/2) 1).mpr
      (by norm_num [List.getD])
  · exact C2_find_peaks_characterization.2.1 [1, 2] [] 0 (by norm_num)

/-- Updating one key of the grid dict changes exactly that key's value,
adding the weight to the previous value (0 when the key is new). -/
theorem gridFind_gridUpsert (m : List ((Int × Int) × Rat)) (k : Int × Int)
    (w : Rat) (k' : Int × Int) :
    gridFind (gridUpsert m k w) k' =
      if k' = k then Option.some ((gridFind m k).getD 0 + w)
      else gridFind m k' := by
  induction m with
  | nil =>
      by_cases hk : k' = k
      · subst hk
        simp [gridUpsert, gridFind]
      · simp [gridUpsert, gridFind, hk, Ne.symm hk]
  | cons kv rest ih =>
      obtain ⟨k2, w2⟩ := kv
      by_cases h2 : k2 = k
      · subst h2
        by_cases hk : k' = k2
        · subst hk
          simp [gridUpsert, gridFind]
        · simp [gridUpsert, gridFind, hk, Ne.symm hk]
      · by_cases hk2 : k2 = k'
        · subst hk2
          simp [gridUpsert, gridFind, h2, Ne.symm h2]
        · by_cases hk : k' = k
          · subst hk
            simp [gridUpsert, gridFind, h2, Ne.symm h2, hk2, Ne.symm hk2, ih]
          · simp [gridUpsert, gridFind, h2, Ne.symm h2, hk2, Ne.symm hk2, hk,
              Ne.symm hk, ih]

/-- Cells whose key collects no point have total weight 0. -/
theorem sumWeights_eq_zero (g : Int) (pts : List GazePoint) (k : Int × Int)
    (h : ¬ ∃ p ∈ pts, gridKey g p = k) : sumWeights g pts k = 0 := by
  induction pts with
  | nil => rfl
  | cons p rest ih =>
      rw [sumWeights, if_neg (fun hp => h ⟨p, List.mem_cons_self p rest, hp⟩),
        ih (fun ⟨q, hq, hqk⟩ => h ⟨q, List.mem_cons_of_mem p hq, hqk⟩), add_zero]

/-- Folding the binning step over the points accumulates, per key, the total
weight of the points with that key on top of whatever the accumulator held. -/
theorem gridFind_heatfold (g : Int) (pts : List GazePoint) :
    ∀ (m : List ((Int × Int) × Rat)) (k : Int × Int),
      gridFind
          (pts.foldl
            (fun acc p => gridUpsert acc (gridKey g p) (p.confidence.getD 1)) m)
          k =
        if ∃ p ∈ pts, gridKey g p = k then
          Option.some ((gridFind m k).getD 0 + sumWeights g pts k)
        else gridFind m k := by
  induction pts with
  | nil => intro m k; simp [sumWeights]
  | cons p rest ih =>
      intro m k
      rw [List.foldl_cons, ih]
      by_cases hk : gridKey g p = k
      · have hmem : ∃ q ∈ p :: rest, gridKey g q = k :=
          ⟨p, List.mem_cons_self p rest, hk⟩
        rw [if_pos hmem]
        by_cases hr : ∃ q ∈ rest, gridKey g q = k
        · rw [if_pos hr, gridFind_gridUpsert, if_pos (Eq.symm hk), hk]
          simp only [sumWeights, if_pos hk, Option.getD_some]
          rw [add_assoc]
        · rw [if_neg hr, gridFind_gridUpsert, if_pos (Eq.symm hk), hk]
          simp only [sumWeights, if_pos hk, Option.getD_some,
            sumWeights_eq_zero g rest k hr, add_zero]
      · have hmem : (∃ q ∈ p :: rest, gridKey g q = k) ↔
            (∃ q ∈ rest, gridKey g q = k) := by
          constructor
          · rintro ⟨q, hq, hqk⟩
            rcases List.mem_cons.mp hq with rfl | hq2
            · exact absurd hqk hk
            · exact ⟨q, hq2, hqk⟩
          · rintro ⟨q, hq, hqk⟩
            exact ⟨q, List.mem_cons_of_mem p hq, hqk⟩
        by_cases hr : ∃ q ∈ rest, gridKey g q = k
        · rw [if_pos hr, if_pos (hmem.mpr hr), gridFind_gridUpsert,
            if_neg (fun h => hk (Eq.symm h))]
          simp only [sumWeights, if_neg hk, zero_add]
        · rw [if_neg hr, if_neg (fun h => hr (hmem.mp h)), gridFind_gridUpsert,
            if_neg (fun h => hk (Eq.symm h))]

/-- Reading a cell of the emitted cell list is reading the grid dict. -/
theorem cellWeightOf_map (m : List ((Int × Int) × Rat)) (k : Int × Int) :
    cellWeightOf (m.map (fun kv => ⟨kv.1.1, kv.1.2, kv.2⟩)) k = gridFind m k := by
  induction m with
  | nil => rfl
  | cons kv rest ih =>
      obtain ⟨⟨ka, kb⟩, w⟩ := kv
      by_cases hk : (ka, kb) = k
      · simp [cellWeightOf, gridFind, hk]
      · simp [cellWeightOf, gridFind, hk, ih]

/-- The key list of the grid dict after an upsert: unchanged when the key
was present, the key appended when new. -/
theorem gridUpsert_keys (m : List ((Int × Int) × Rat)) (k : Int × Int)
    (w : Rat) :
    (gridUpsert m k w).map Prod.fst =
      if k ∈ m.map Prod.fst then m.map Prod.fst else m.map Prod.fst ++ [k] := by
  induction m with
  | nil => simp [gridUpsert]
  | cons kv rest ih =>
      obtain ⟨k2, w2⟩ := kv
      by_cases h2 : k2 = k
      · subst h2
        simp [gridUpsert]
      · simp only [gridUpsert, if_neg h2, List.map_cons, ih]
        by_cases hk : k ∈ rest.map Prod.fst
        · rw [if_pos hk, if_pos (List.mem_cons_of_mem _ hk)]
        · rw [if_neg hk, if_neg (fun hmem => by
            rcases List.mem_cons.mp hmem with h | h
            · exact h2 (Eq.symm h)
            · exact hk h), List.cons_append]

/-- Upserting preserves distinctness of the grid dict's keys. -/
theorem gridUpsert_nodup (m : List ((Int × Int) × Rat)) (k : Int × Int)
    (w : Rat) (h : (m.map Prod.fst).Nodup) :
    ((gridUpsert m k w).map Prod.fst).Nodup := by
  rw [gridUpsert_keys]
  by_cases hk : k ∈ m.map Prod.fst
  · rwa [if_pos hk]
  · rw [if_neg hk]
    exact List.Nodup.append h (List.nodup_singleton k)
      (fun a ha hak => hk (by rwa [List.mem_singleton.mp hak] at ha))

/-- The binning fold preserves distinctness of the grid dict's keys. -/
theorem heatfold_nodup (g : Int) (pts : List GazePoint) :
    ∀ m : List ((Int × Int) × Rat), (m.map Prod.fst).Nodup →
      ((pts.foldl
          (fun acc p => gridUpsert acc (gridKey g p) (p.confidence.getD 1))
          m).map Prod.fst).Nodup := by
  induction pts with
  | nil => intro m hm; exact hm
  | cons p rest ih =>
      intro m hm
      rw [List.foldl_cons]
      exact ih _ (gridUpsert_nodup m _ _ hm)

/-- Claim C3: the heatmap assigns each point to the cell keyed by
(floor(x/g)*g, floor(y/g)*g), reports for a cell exactly the total
(default-1) confidence weight of the points in it, reports only cells
containing at least one point (and each cell key at most once), and on the
points (10,10), (40,40), (60,60) with grid pitch 50 yields exactly the
cells (0,0) with weight 2 and (50,50) with weight 1. -/
theorem C3_heatmap_binning :
    (∀ (pts : List GazePoint) (g : Int) (k : Int × Int),
        cellWeightOf (generate_gaze_heatmap pts g) k =
          if ∃ p ∈ pts, gridKey g p = k then Option.some (sumWeights g pts k)
          else Option.none)
    ∧ (∀ (g : Int) (p : GazePoint),
        gridKey g p = (⌊p.x / (g : Rat)⌋ * g, ⌊p.y / (g : Rat)⌋ * g))
    ∧ (∀ (pts : List GazePoint) (g : Int),
        ((generate_gaze_heatmap pts g).map (fun c => (c.x, c.y))).Nodup)
    ∧ generate_gaze_heatmap
        [⟨10, 10, Option.none⟩, ⟨40, 40, Option.none⟩, ⟨60, 60, Option.none⟩]
        50 =
        [⟨0, 0, 2⟩, ⟨50, 50, 1⟩] := by
  refine ⟨?_, ?_, ?_, ?_⟩
  · intro pts g k
    rw [generate_gaze_heatmap]
    by_cases hpts : pts.isEmpty
    · rw [if_pos hpts]
      rw [List.isEmpty_iff] at hpts
      subst hpts
      simp [cellWeightOf]
    · rw [if_neg hpts, cellWeightOf_map, gridFind_heatfold]
      by_cases hex : ∃ p ∈ pts, gridKey g p = k
      · rw [if_pos hex, if_pos hex]
        simp [gridFind]
      · rw [if_neg hex, if_neg hex]
        rfl
  · intro g p
    rfl
  · intro pts g
    rw [generate_gaze_heatmap]
    by_cases hpts : pts.isEmpty
    · rw [if_pos hpts]; exact List.nodup_nil
    · rw [if_neg hpts, List.map_map]
      have : ((fun c : HeatmapCell => (c.x, c.y)) ∘
          (fun kv : (Int × Int) × Rat => (⟨kv.1.1, kv.1.2, kv.2⟩ : HeatmapCell)))
          = Prod.fst := by
        funext kv
        rfl
      rw [this]
      exact heatfold_nodup g pts [] List.nodup_nil
  · norm_num [generate_gaze_heatmap, gridUpsert, gridKey, Rat.floor,
      Prod.ext_iff]

/-- Projections of the state right after start_session: the session is
active, the start time is stamped, all sequences are reset and the
configuration fields are carried over. -/
theorem start_session_fields {F : Type} (st : RecorderState F) (t : Rat)
    (ds fname : String) (ok : Bool) :
    (start_session st t ds fname ok).1.session_active = true ∧
    (start_session st t ds fname ok).1.session_start_time = Option.some t ∧
    (start_session st t ds fname ok).1.session_data.video_frames = [] ∧
    (start_session st t ds fname ok).1.session_data.emotions = [] ∧
    (start_session st t ds fname ok).1.session_data.gaze_points = [] ∧
    (start_session st t ds fname ok).1.session_data.game_events = [] ∧
    (start_session st t ds fname ok).1.session_data.timestamps = [] ∧
    (start_session st t ds fname ok).1.session_data.frame_count = 0 ∧
    (start_session st t ds fname ok).1.max_frames_in_memory =
      st.max_frames_in_memory ∧
    (start_session st t ds fname ok).1.export_raw_frames =
      st.export_raw_frames := by
  simp only [start_session]
  split <;> exact ⟨rfl, rfl, rfl, rfl, rfl, rfl, rfl, rfl, rfl, rfl⟩

/-- Monotonicity of the relative-timestamp computation in the raw
timestamp. -/
theorem relative_ts_mono (s : Option Rat) {a b : Rat} (h : a ≤ b) :
    relative_ts s a ≤ relative_ts s b := by
  unfold relative_ts
  split
  · exact sub_le_sub_right h _
  · exact le_refl 0

/-- One add_frame_data call never changes the activity flag, the session
start time, or the configuration fields. -/
theorem add_frame_data_keeps_config {F : Type} (resize : F → Nat × Nat → F)
    (st : RecorderState F) (t : Rat) (fr : Option F)
    (em : Option EmotionReading) (gz : Option (Rat × Rat)) :
    (add_frame_data resize st t fr em gz).session_active =
      st.session_active ∧
    (add_frame_data resize st t fr em gz).session_start_time =
      st.session_start_time ∧
    (add_frame_data resize st t fr em gz).max_frames_in_memory =
      st.max_frames_in_memory ∧
    (add_frame_data resize st t fr em gz).export_raw_frames =
      st.export_raw_frames := by
  refine ⟨?_, ?_, ?_, ?_⟩ <;>
    · rcases fr with _ | f <;> rcases em with _ | e <;> rcases gz with _ | g <;>
        rcases hw : st.video_writer with _ | w <;>
          simp only [add_frame_data, hw] <;>
            (repeat' split) <;> rfl

/-- On an active recorder, add_frame_data appends the relative timestamp
and increments frame_count. -/
theorem add_frame_data_timestamps {F : Type} (resize : F → Nat × Nat → F)
    (st : RecorderState F) (t : Rat) (fr : Option F)
    (em : Option EmotionReading) (gz : Option (Rat × Rat))
    (h : st.session_active = true) :
    (add_frame_data resize st t fr em gz).session_data.timestamps =
      st.session_data.timestamps ++ [relative_ts st.session_start_time t] ∧
    (add_frame_data resize st t fr em gz).session_data.frame_count =
      st.session_data.frame_count + 1 := by
  refine ⟨?_, ?_⟩ <;>
    · rcases fr with _ | f <;> rcases em with _ | e <;> rcases gz with _ | g <;>
        rcases hw : st.video_writer with _ | w <;>
          simp only [add_frame_data, h, eq_self_iff_true, not_true, if_false,
            hw] <;>
            (repeat' split) <;> rfl

/-- One add_frame_data call keeps the in-memory frame list within the cap. -/
theorem add_frame_data_cap {F : Type} (resize : F → Nat × Nat → F)
    (st : RecorderState F) (t : Rat) (fr : Option F)
    (em : Option EmotionReading) (gz : Option (Rat × Rat))
    (hc : st.session_data.video_frames.length ≤ st.max_frames_in_memory) :
    (add_frame_data resize st t fr em gz).session_data.video_frames.length ≤
      st.max_frames_in_memory := by
  rcases fr with _ | f <;> rcases em with _ | e <;> rcases gz with _ | g <;>
    rcases hw : st.video_writer with _ | w <;>
      simp only [add_frame_data, hw] <;>
        (repeat' split) <;>
          (try simp_all [List.length_append]) <;> omega

/-- Effect of one add_game_event call on an active recorder. -/
theorem add_game_event_active {F : Type} (st : RecorderState F) (t : Rat)
    (et : String) (ed : List (String × PyVal))
    (h : st.session_active = true) :
    add_game_event st t et ed = { st with
      session_data.game_events := st.session_data.game_events ++
        [⟨relative_ts st.session_start_time t, et, ed,
          st.session_data.frame_count⟩] } := by
  simp [add_game_event, h]

/-- Effect of a sequence of add_frame_data calls on an active recorder. -/
theorem run_frame_calls_fields {F : Type} (resize : F → Nat × Nat → F)
    (calls : List (FrameCall F)) :
    ∀ st : RecorderState F, st.session_active = true →
      (run_frame_calls resize st calls).session_active = true ∧
      (run_frame_calls resize st calls).session_start_time =
        st.session_start_time ∧
      (run_frame_calls resize st calls).max_frames_in_memory =
        st.max_frames_in_memory ∧
      (run_frame_calls resize st calls).session_data.timestamps =
        st.session_data.timestamps ++
          calls.map (fun c => relative_ts st.session_start_time c.timestamp) ∧
      (run_frame_calls resize st calls).session_data.frame_count =
        st.session_data.frame_count + calls.length ∧
      (st.session_data.video_frames.length ≤ st.max_frames_in_memory →
        (run_frame_calls resize st calls).session_data.video_frames.length ≤
          st.max_frames_in_memory) := by
  induction calls with
  | nil =>
      intro st h
      exact ⟨h, rfl, rfl, by simp [run_frame_calls], by simp [run_frame_calls],
        fun hc => hc⟩
  | cons c calls ih =>
      intro st h
      obtain ⟨ka, ks, km, -⟩ :=
        add_frame_data_keeps_config resize st c.timestamp c.frame c.emotions
          c.gaze_point
      obtain ⟨hts, hfc⟩ :=
        add_frame_data_timestamps resize st c.timestamp c.frame c.emotions
          c.gaze_point h
      have ha : (add_frame_data resize st c.timestamp c.frame c.emotions
          c.gaze_point).session_active = true := by rw [ka, h]
      have hrun : run_frame_calls resize st (c :: calls) =
          run_frame_calls resize
            (add_frame_data resize st c.timestamp c.frame c.emotions
              c.gaze_point) calls := by
        simp [run_frame_calls]
      obtain ⟨ia, is_, im, its, ifc, icap⟩ :=
        ih (add_frame_data resize st c.timestamp c.frame c.emotions
          c.gaze_point) ha
      refine ⟨hrun ▸ ia, ?_, ?_, ?_, ?_, ?_⟩
      · rw [hrun, is_, ks]
      · rw [hrun, im, km]
      · rw [hrun, its, hts, ks, List.map_cons, List.append_assoc,
          List.singleton_append]
      · rw [hrun, ifc, hfc, List.length_cons]
        omega
      · intro hc
        rw [hrun]
        have h1 := add_frame_data_cap resize st c.timestamp c.frame c.emotions
          c.gaze_point hc
        have h2 := icap (by rw [km]; exact h1)
        rwa [km] at h2

/-- Claim C1: for a session started at time t0 and any sequence of
add_frame_data calls whose raw timestamps are non-decreasing and not below
t0, after the N calls frame_count is N, the timestamps list has length N,
and the recorded relative timestamps are non-decreasing. -/
theorem C1_add_frame_data_monotone : ∀ (F : Type) (resize : F → Nat × Nat → F)
    (st0 : RecorderState F) (t0 : Rat) (ds fname : String) (ok : Bool)
    (calls : List (FrameCall F)),
    List.Chain' (· ≤ ·) (calls.map FrameCall.timestamp) →
    (∀ c ∈ calls, t0 ≤ c.timestamp) →
    (run_frame_calls resize (start_session st0 t0 ds fname ok).1
        calls).session_data.frame_count = calls.length ∧
    (run_frame_calls resize (start_session st0 t0 ds fname ok).1
        calls).session_data.timestamps.length = calls.length ∧
    List.Chain' (· ≤ ·)
      (run_frame_calls resize (start_session st0 t0 ds fname ok).1
        calls).session_data.timestamps := by
  intro F resize st0 t0 ds fname ok calls hchain _hstart
  obtain ⟨sa, ss, -, -, -, -, sts, sfc, -, -⟩ :=
    start_session_fields st0 t0 ds fname ok
  obtain ⟨-, -, -, rts, rfc, -⟩ :=
    run_frame_calls_fields resize calls _ sa
  have hts : (run_frame_calls resize (start_session st0 t0 ds fname ok).1
      calls).session_data.timestamps =
      (calls.map FrameCall.timestamp).map
        (relative_ts (Option.some t0)) := by
    rw [rts, sts, ss, List.nil_append, List.map_map]
    rfl
  refine ⟨?_, ?_, ?_⟩
  · rw [rfc, sfc]
    omega
  · rw [hts, List.length_map, List.length_map]
  · rw [hts, List.chain'_map]
    exact List.Chain'.imp (fun a b hab => relative_ts_mono _ hab) hchain

/-- Witness for C1: two calls with timestamps 100 then 101 from a session
started at time 100. -/
theorem C1_witness :
    (run_frame_calls (fun (f : Unit) _ => f)
        (start_session (DataRecorder_init Unit) 100 "d" "rec.mp4" true).1
        [⟨100, Option.none, Option.none, Option.none⟩,
         ⟨101, Option.none, Option.none, Option.none⟩]).session_data.frame_count
        = 2 ∧
    (run_frame_calls (fun (f : Unit) _ => f)
        (start_session (DataRecorder_init Unit) 100 "d" "rec.mp4" true).1
        [⟨100, Option.none, Option.none, Option.none⟩,
         ⟨101, Option.none, Option.none, Option.none⟩]).session_data.timestamps.length
        = 2 ∧
    List.Chain' (· ≤ ·)
      (run_frame_calls (fun (f : Unit) _ => f)
        (start_session (DataRecorder_init Unit) 100 "d" "rec.mp4" true).1
        [⟨100, Option.none, Option.none, Option.none⟩,
         ⟨101, Option.none, Option.none, Option.none⟩]).session_data.timestamps :=
  C1_add_frame_data_monotone Unit (fun f _ => f) (DataRecorder_init Unit) 100
    "d" "rec.mp4" true
    [⟨100, Option.none, Option.none, Option.none⟩,
     ⟨101, Option.none, Option.none, Option.none⟩]
    (by norm_num [List.chain'_cons])
    (by intro c hc; fin_cases hc <;> norm_num)

/-- Claim C4: from any freshly started session, after any number of
add_frame_data calls the in-memory frame list stays within the configured
cap while frame_count counts every call; in particular 5000 calls against
the default cap of 1000 leave at most 1000 in-memory frames but a
frame_count of 5000. -/
theorem C4_memory_cap :
    (∀ (F : Type) (resize : F → Nat × Nat → F) (st0 : RecorderState F)
      (t0 : Rat) (ds fname : String) (ok : Bool)
      (calls : List (FrameCall F)),
      (run_frame_calls resize (start_session st0 t0 ds fname ok).1
          calls).session_data.video_frames.length ≤ st0.max_frames_in_memory ∧
      (run_frame_calls resize (start_session st0 t0 ds fname ok).1
          calls).session_data.frame_count = calls.length)
    ∧ (run_frame_calls (fun (f : Unit) _ => f)
        (start_session (DataRecorder_init Unit) 100 "d" "rec.mp4" true).1
        (List.replicate 5000
          ⟨0, Option.some (), Option.none, Option.none⟩)).session_data.video_frames.length
        ≤ 1000
    ∧ (run_frame_calls (fun (f : Unit) _ => f)
        (start_session (DataRecorder_init Unit) 100 "d" "rec.mp4" true).1
        (List.replicate 5000
          ⟨0, Option.some (), Option.none, Option.none⟩)).session_data.frame_count
        = 5000 := by
  have hgen : ∀ (F : Type) (resize : F → Nat × Nat → F) (st0 : RecorderState F)
      (t0 : Rat) (ds fname : String) (ok : Bool)
      (calls : List (FrameCall F)),
      (run_frame_calls resize (start_session st0 t0 ds fname ok).1
          calls).session_data.video_frames.length ≤ st0.max_frames_in_memory ∧
      (run_frame_calls resize (start_session st0 t0 ds fname ok).1
          calls).session_data.frame_count = calls.length := by
    intro F resize st0 t0 ds fname ok calls
    obtain ⟨sa, -, svf, -, -, -, -, sfc, sm, -⟩ :=
      start_session_fields st0 t0 ds fname ok
    obtain ⟨-, -, -, -, rfc, rcap⟩ := run_frame_calls_fields resize calls _ sa
    constructor
    · have := rcap (by rw [svf]; exact Nat.zero_le _)
      rwa [sm] at this
    · rw [rfc, sfc]
      omega
  refine ⟨hgen, ?_, ?_⟩
  · have := (hgen Unit (fun f _ => f) (DataRecorder_init Unit) 100 "d"
      "rec.mp4" true (List.replicate 5000
        ⟨0, Option.some (), Option.none, Option.none⟩)).1
    have hmax : (DataRecorder_init Unit).max_frames_in_memory = 1000 := rfl
    rwa [hmax] at this
  · have := (hgen Unit (fun f _ => f) (DataRecorder_init Unit) 100 "d"
      "rec.mp4" true (List.replicate 5000
        ⟨0, Option.some (), Option.none, Option.none⟩)).2
    rwa [List.length_replicate] at this

/-- Claim C7: append calls arriving while no session is active are silently
ignored and leave the whole recorder state unchanged. -/
theorem C7_inactive_ignored : ∀ (F : Type) (resize : F → Nat × Nat → F)
    (st : RecorderState F) (t : Rat) (fr : Option F)
    (em : Option EmotionReading) (gz : Option (Rat × Rat)) (et : String)
    (ed : List (String × PyVal)),
    st.session_active = false →
    add_frame_data resize st t fr em gz = st ∧
    add_game_event st t et ed = st := by
  intro F resize st t fr em gz et ed h
  constructor
  · simp [add_frame_data, h]
  · simp [add_game_event, h]

/-- Witness for C7: the freshly constructed recorder is inactive, and both
append calls leave it untouched. -/
theorem C7_witness :
    add_frame_data (fun (f : Unit) _ => f) (DataRecorder_init Unit) 5
        Option.none Option.none Option.none = DataRecorder_init Unit ∧
    add_game_event (DataRecorder_init Unit) 5 "game_start" [] =
      DataRecorder_init Unit :=
  C7_inactive_ignored Unit (fun f _ => f) (DataRecorder_init Unit) 5
    Option.none Option.none Option.none "game_start" [] rfl

/-- Projections of the state and snapshot produced by stop_session: the
session is deactivated, the start time is kept, the video writer is
released, and the snapshot is a copy of the final session_data. -/
theorem stop_session_fields {F : Type} (st : RecorderState F) (t : Rat)
    (s : String) :
    (stop_session st t s).1.session_active = false ∧
    (stop_session st t s).1.session_start_time = st.session_start_time ∧
    (stop_session st t s).1.video_writer = Option.none ∧
    (stop_session st t s).2 = (stop_session st t s).1.session_data := by
  refine ⟨?_, ?_, ?_, ?_⟩ <;>
    · rcases hb : truthyRat st.session_start_time <;>
        rcases hw : st.video_writer with _ | w <;>
          rcases hf : st.video_filename with _ | f <;>
            simp only [stop_session, hb, hw, hf, Bool.false_eq_true, if_false,
              if_true] <;>
              (repeat' split) <;> rfl

/-- Stopping a session whose start time is truthy stamps end_time, duration
and end_datetime from the stop call's own clock readings. -/
theorem stop_session_truthy_info {F : Type} (st : RecorderState F) (t : Rat)
    (s : String) (hb : truthyRat st.session_start_time = true) :
    (stop_session st t s).2.session_info.end_time = Option.some t ∧
    (stop_session st t s).2.session_info.duration =
      Option.some (t - st.session_start_time.getD 0) ∧
    (stop_session st t s).2.session_info.end_datetime = Option.some s := by
  refine ⟨?_, ?_, ?_⟩ <;>
    · rcases hw : st.video_writer with _ | w <;>
        rcases hf : st.video_filename with _ | f <;>
          simp only [stop_session, hb, hw, hf, if_true] <;>
            (repeat' split) <;> rfl

/-- Stopping with no recorded start time and no open writer returns the
session data unchanged and leaves it unchanged in the state. -/
theorem stop_session_no_start {F : Type} (st : RecorderState F) (t : Rat)
    (s : String) (h0 : st.session_start_time = Option.none)
    (hw : st.video_writer = Option.none) :
    (stop_session st t s).2 = st.session_data ∧
    (stop_session st t s).1.session_data = st.session_data ∧
    (stop_session st t s).1.session_start_time = Option.none ∧
    (stop_session st t s).1.video_writer = Option.none := by
  refine ⟨?_, ?_, ?_, ?_⟩ <;>
    simp only [stop_session, h0, hw, truthyRat, Bool.false_eq_true, if_false]

/-- Claim C5 as amended: stop_session is total (never raises) and always
returns a snapshot; called without any prior start it is idempotent and
returns the untouched (empty-session_info) data; but after a started
session, a second consecutive stop is not a no-op: it re-stamps end_time,
duration and end_datetime from its own clock, so the session record changes
whenever the clock has advanced. -/
theorem C5_amended_stop_session : ∀ (F : Type) (st : RecorderState F)
    (t1 t2 : Rat) (s1 s2 : String),
    ((stop_session st t1 s1).1.session_active = false ∧
      (stop_session (stop_session st t1 s1).1 t2 s2).1.session_active =
        false) ∧
    (st.session_start_time = Option.none → st.video_writer = Option.none →
      (stop_session st t1 s1).2 = st.session_data ∧
      (stop_session (stop_session st t1 s1).1 t2 s2).2 =
        (stop_session st t1 s1).2) ∧
    (truthyRat st.session_start_time = true →
      (stop_session st t1 s1).2.session_info.end_time = Option.some t1 ∧
      (stop_session (stop_session st t1 s1).1 t2 s2).2.session_info.end_time =
        Option.some t2 ∧
      (stop_session (stop_session st t1 s1).1 t2 s2).2.session_info.duration =
        Option.some (t2 - st.session_start_time.getD 0) ∧
      (stop_session (stop_session st t1 s1).1 t2
        s2).2.session_info.end_datetime = Option.some s2) := by
  intro F st t1 t2 s1 s2
  obtain ⟨a1, b1, w1, -⟩ := stop_session_fields st t1 s1
  obtain ⟨a2, -, -, -⟩ := stop_session_fields (stop_session st t1 s1).1 t2 s2
  refine ⟨⟨a1, a2⟩, ?_, ?_⟩
  · intro h0 hw
    obtain ⟨p1, q1, r1, v1⟩ := stop_session_no_start st t1 s1 h0 hw
    obtain ⟨p2, -, -, -⟩ := stop_session_no_start (stop_session st t1 s1).1 t2
      s2 r1 v1
    exact ⟨p1, by rw [p2, q1, p1]⟩
  · intro hb
    obtain ⟨e1, -, -⟩ := stop_session_truthy_info st t1 s1 hb
    obtain ⟨e2, d2, x2⟩ := stop_session_truthy_info (stop_session st t1 s1).1
      t2 s2 (by rwa [b1])
    rw [b1] at d2
    exact ⟨e1, e2, d2, x2⟩

/-- Witness for C5 (amended): stopping the never-started recorder twice is
harmless and idempotent. -/
theorem C5_witness :
    (stop_session (DataRecorder_init Unit) 1 "a").2 =
      (DataRecorder_init Unit).session_data ∧
    (stop_session (stop_session (DataRecorder_init Unit) 1 "a").1 2 "b").2 =
      (stop_session (DataRecorder_init Unit) 1 "a").2 :=
  (C5_amended_stop_session Unit (DataRecorder_init Unit) 1 2 "a" "b").2.1 rfl
    rfl

/-- Counterexample to claim C5 as stated: after starting at time 100 and
stopping at time 101, a second stop at time 102 re-stamps end_time, so the
second call is not a no-op on the session record. -/
theorem C5_counterexample :
    (stop_session (start_session (DataRecorder_init Unit) 100 "d0" "f.mp4"
        true).1 101 "d1").2.session_info.end_time = Option.some 101 ∧
    (stop_session (stop_session (start_session (DataRecorder_init Unit) 100
        "d0" "f.mp4" true).1 101 "d1").1 102
        "d2").2.session_info.end_time = Option.some 102 ∧
    (stop_session (stop_session (start_session (DataRecorder_init Unit) 100
        "d0" "f.mp4" true).1 101 "d1").1 102
        "d2").2.session_info.end_time ≠
      (stop_session (start_session (DataRecorder_init Unit) 100 "d0" "f.mp4"
        true).1 101 "d1").2.session_info.end_time := by
  have hb : truthyRat (start_session (DataRecorder_init Unit) 100 "d0"
      "f.mp4" true).1.session_start_time = true := by
    norm_num [start_session, DataRecorder_init, truthyRat]
  obtain ⟨e1, -, -⟩ := stop_session_truthy_info
    (start_session (DataRecorder_init Unit) 100 "d0" "f.mp4" true).1 101 "d1"
    hb
  obtain ⟨-, b1, -, -⟩ := stop_session_fields
    (start_session (DataRecorder_init Unit) 100 "d0" "f.mp4" true).1 101 "d1"
  obtain ⟨e2, -, -⟩ := stop_session_truthy_info
    (stop_session (start_session (DataRecorder_init Unit) 100 "d0" "f.mp4"
      true).1 101 "d1").1 102 "d2" (by rwa [b1])
  refine ⟨e1, e2, ?_⟩
  rw [e1, e2]
  norm_num

/-- Claim C10 as amended: an add_frame_data call on an active session with
frame = None appends the relative timestamp, increments frame_count,
appends any supplied non-empty emotion reading and any supplied gaze point
(each tagged with the incremented frame_count), and changes nothing else -
in particular it writes nothing to the video sink and retains no frame in
memory (a supplied but empty emotion mapping is ignored, like an absent
one). -/
theorem C10_amended_none_frame : ∀ (F : Type) (resize : F → Nat × Nat → F)
    (st : RecorderState F) (t : Rat) (em : Option EmotionReading)
    (gz : Option (Rat × Rat)),
    st.session_active = true →
    add_frame_data resize st t Option.none em gz = { st with
      session_data := { st.session_data with
        timestamps := st.session_data.timestamps ++
          [relative_ts st.session_start_time t]
        frame_count := st.session_data.frame_count + 1
        emotions := st.session_data.emotions ++
          (match em with
           | Option.some e =>
               if e.truthy then
                 [⟨relative_ts st.session_start_time t,
                   st.session_data.frame_count + 1,
                   e.emotions.getD [] ++ e.action_units.getD []⟩]
               else []
           | Option.none => [])
        gaze_points := st.session_data.gaze_points ++
          (match gz with
           | Option.some g =>
               [⟨relative_ts st.session_start_time t,
                 st.session_data.frame_count + 1, g.1, g.2, 1⟩]
           | Option.none => []) } } := by
  intro F resize st t em gz h
  rcases em with _ | e
  · rcases gz with _ | g <;> simp [add_frame_data, h]
  · rcases gz with _ | g <;> cases hbt : e.truthy <;>
      simp [add_frame_data, h, hbt]

/-- Witness for C10 (amended): a supplied non-empty emotion reading and a
gaze point are appended on a frameless call against an active recorder. -/
theorem C10_witness :
    add_frame_data (fun (f : Unit) _ => f)
        { DataRecorder_init Unit with session_active := true } 5 Option.none
        (Option.some ⟨Option.some [("happiness", 1)], Option.none⟩)
        (Option.some (3, 4)) =
      { { DataRecorder_init Unit with session_active := true } with
        session_data := { (DataRecorder_init Unit).session_data with
          timestamps := [relative_ts Option.none 5]
          frame_count := 1
          emotions := [⟨relative_ts Option.none 5, 1, [("happiness", 1)]⟩]
          gaze_points := [⟨relative_ts Option.none 5, 1, 3, 4, 1⟩] } } := by
  have h := C10_amended_none_frame Unit (fun f _ => f)
    { DataRecorder_init Unit with session_active := true } 5
    (Option.some ⟨Option.some [("happiness", 1)], Option.none⟩)
    (Option.some (3, 4)) rfl
  simpa [DataRecorder_init, EmotionReading.truthy] using h

/-- Counterexample to claim C10 as stated: a supplied but empty emotion
reading (the falsy dict) is not appended, even though the call itself is
processed (frame_count becomes 1 and a timestamp is recorded). -/
theorem C10_counterexample :
    (add_frame_data (fun (f : Unit) _ => f)
        (start_session (DataRecorder_init Unit) 100 "d" "f.mp4" true).1 101
        Option.none (Option.some ⟨Option.none, Option.none⟩)
        Option.none).session_data.emotions = [] ∧
    (add_frame_data (fun (f : Unit) _ => f)
        (start_session (DataRecorder_init Unit) 100 "d" "f.mp4" true).1 101
        Option.none (Option.some ⟨Option.none, Option.none⟩)
        Option.none).session_data.frame_count = 1 ∧
    (add_frame_data (fun (f : Unit) _ => f)
        (start_session (DataRecorder_init Unit) 100 "d" "f.mp4" true).1 101
        Option.none (Option.some ⟨Option.none, Option.none⟩)
        Option.none).session_data.timestamps ≠ [] := by
  refine ⟨?_, ?_, ?_⟩ <;>
    norm_num [add_frame_data, start_session, DataRecorder_init,
      EmotionReading.truthy, relative_ts, truthyRat]

/-- Appending under a filter inside a left fold is filter-then-map. -/
theorem foldl_append_filter {α β : Type} (P : α → Bool) (g : α → β) :
    ∀ (l : List α) (acc : List β),
      l.foldl (fun acc e => if P e then acc ++ [g e] else acc) acc =
        acc ++ (l.filter P).map g := by
  intro l
  induction l with
  | nil => intro acc; simp
  | cons e rest ih =>
      intro acc
      rw [List.foldl_cons]
      cases hP : P e <;> simp [hP, ih]

/-- Claim C6 as amended: for a non-empty event list, the game statistics'
score-progression series holds one entry (the event's timestamp and its
payload's score value, defaulting to 0 when absent) for exactly those
events whose type is score_update, target_hit or
flappy_bird_score_update, in the events' original order.  (For an empty
event list the statistics dict itself is empty.) -/
theorem C6_amended_score_progression : ∀ events : List GameEvent,
    events ≠ [] →
    ∃ s, calculate_game_stats events = Option.some s ∧
      s.score_progression =
        (events.filter (fun e => scoreTypes.contains e.type)).map
          (fun e => ⟨e.timestamp, pyGet e.data "score" (PyVal.int 0)⟩) := by
  intro events hne
  rw [calculate_game_stats,
    if_neg (by simp [List.isEmpty_iff, hne])]
  refine ⟨_, rfl, ?_⟩
  show events.foldl
      (fun acc e =>
        if scoreTypes.contains e.type then
          acc ++
            [(⟨e.timestamp, pyGet e.data "score" (PyVal.int 0)⟩ : ScoreEntry)]
        else acc) ([] : List ScoreEntry) =
    (events.filter (fun e => scoreTypes.contains e.type)).map
      (fun e => (⟨e.timestamp, pyGet e.data "score" (PyVal.int 0)⟩ :
        ScoreEntry))
  rw [foldl_append_filter (fun e => scoreTypes.contains e.type)
    (fun e => (⟨e.timestamp, pyGet e.data "score" (PyVal.int 0)⟩ : ScoreEntry))
    events [], List.nil_append]

/-- Witness for C6 (amended): a single target_hit event with score 3 yields
exactly one progression entry carrying that score. -/
theorem C6_witness : ∃ s,
    calculate_game_stats [⟨1, "target_hit", [("score", PyVal.int 3)], 0⟩] =
      Option.some s ∧
    s.score_progression = [⟨1, PyVal.int 3⟩] := by
  obtain ⟨s, hs, hsp⟩ := C6_amended_score_progression
    [⟨1, "target_hit", [("score", PyVal.int 3)], 0⟩] (by simp)
  refine ⟨s, hs, ?_⟩
  rw [hsp]
  simp [scoreTypes, pyGet, dictFind]

/-- Counterexample to claim C6 as stated: an event of an unlisted type whose
payload carries a numeric score produces no progression entry, while a
listed-type event without any score field produces one (with score 0), so
the series is not selected by the presence of a numeric score field. -/
theorem C6_counterexample :
    (calculate_game_stats
        [⟨1, "custom_event", [("score", PyVal.int 5)], 0⟩,
         ⟨2, "target_hit", [], 0⟩]).map GameStats.score_progression =
      Option.some [⟨2, PyVal.int 0⟩] ∧
    score_progression_per_spec
        [⟨1, "custom_event", [("score", PyVal.int 5)], 0⟩,
         ⟨2, "target_hit", [], 0⟩] = [⟨1, PyVal.int 5⟩] ∧
    ([⟨2, PyVal.int 0⟩] : List ScoreEntry) ≠ [⟨1, PyVal.int 5⟩] := by
  refine ⟨?_, ?_, ?_⟩
  · simp [calculate_game_stats, scoreTypes, pyGet, dictFind]
  · simp [score_progression_per_spec, isNumericPyVal, pyGet, dictFind]
  · simp [ScoreEntry.mk.injEq]

mutual

theorem numpy_free_convert : ∀ v : PyVal, numpy_free (convert_numpy v) = true
  | .str _ => rfl
  | .int _ => rfl
  | .float _ => rfl
  | .bool _ => rfl
  | .pynone => rfl
  | .npInt _ => rfl
  | .npFloat _ => rfl
  | .npArray l => by
      simp only [convert_numpy, numpy_free]
      exact numpy_free_convert_list l
  | .list l => by
      simp only [convert_numpy, numpy_free]
      exact numpy_free_convert_list l
  | .dict kvs => by
      simp only [convert_numpy, numpy_free]
      exact numpy_free_convert_kvs kvs

theorem numpy_free_convert_list : ∀ l : List PyVal,
    numpy_free_list (convert_numpy_list l) = true
  | [] => rfl
  | v :: rest => by
      simp only [convert_numpy_list, numpy_free_list, Bool.and_eq_true]
      exact ⟨numpy_free_convert v, numpy_free_convert_list rest⟩

theorem numpy_free_convert_kvs : ∀ kvs : List (String × PyVal),
    numpy_free_kvs (convert_numpy_kvs kvs) = true
  | [] => rfl
  | (k, v) :: rest => by
      simp only [convert_numpy_kvs, numpy_free_kvs, Bool.and_eq_true]
      exact ⟨numpy_free_convert v, numpy_free_convert_kvs rest⟩

end

/-- Setting a key makes it look up to the new value. -/
theorem dictFind_dictSet_same (m : List (String × PyVal)) (k : String)
    (v : PyVal) : dictFind (dictSet m k v) k = Option.some v := by
  induction m with
  | nil => simp [dictSet, dictFind]
  | cons kv rest ih =>
      obtain ⟨k2, v2⟩ := kv
      by_cases h2 : k2 = k
      · subst h2
        simp [dictSet, dictFind]
      · simp [dictSet, dictFind, h2, ih]

/-- Setting a key leaves every other key's lookup unchanged. -/
theorem dictFind_dictSet_other (m : List (String × PyVal)) (k k' : String)
    (v : PyVal) (hk : k' ≠ k) :
    dictFind (dictSet m k v) k' = dictFind m k' := by
  induction m with
  | nil => simp [dictSet, dictFind, hk, Ne.symm hk]
  | cons kv rest ih =>
      obtain ⟨k2, v2⟩ := kv
      by_cases h2 : k2 = k
      · subst h2
        by_cases hk2 : k2 = k'
        · exact absurd hk2.symm hk
        · simp [dictSet, dictFind, hk2, ih]
      · by_cases hk2 : k2 = k'
        · subst hk2
          simp [dictSet, dictFind, h2]
        · simp [dictSet, dictFind, h2, hk2, ih]

/-- Valuewise conversion commutes with dict lookup. -/
theorem dictFind_convert (m : List (String × PyVal)) (k : String) :
    dictFind (convert_numpy_kvs m) k = (dictFind m k).map convert_numpy := by
  induction m with
  | nil => simp [convert_numpy_kvs, dictFind]
  | cons kv rest ih =>
      obtain ⟨k2, v⟩ := kv
      by_cases h2 : k2 = k
      · subst h2
        simp [convert_numpy_kvs, dictFind]
      · simp [convert_numpy_kvs, dictFind, h2, ih]

/-- Claim C8: on a session record whose video_frames field holds the
in-memory frame list, prepare_for_export succeeds and returns a dict whose
video_frames field is the placeholder string naming exactly the in-memory
frame count, which is free of numpy wrappers everywhere, and whose other
keys hold the numpy-converted originals.  (The input dict itself is never
written: the assignment lands on the shallow copy and the conversion builds
fresh values, which this value-semantics embedding reflects by
construction.) -/
theorem C8_export_sanitization : ∀ (data : List (String × PyVal))
    (frames : List PyVal),
    dictFind data "video_frames" = Option.some (PyVal.list frames) →
    ∃ out, prepare_for_export data = Option.some out ∧
      dictFind out "video_frames" = Option.some (PyVal.str
        ("Removed " ++ toString frames.length ++
          " frames to reduce file size")) ∧
      numpy_free_kvs out = true ∧
      (∀ k : String, k ≠ "video_frames" →
        dictFind out k = (dictFind data k).map convert_numpy) := by
  intro data frames hvf
  simp only [prepare_for_export, hvf, pyLen]
  refine ⟨_, rfl, ?_, numpy_free_convert_kvs _, ?_⟩
  · rw [dictFind_convert, dictFind_dictSet_same]
    rfl
  · intro k hk
    rw [dictFind_convert, dictFind_dictSet_other _ _ _ _ hk]

/-- Witness for C8: a session dict with 37 in-memory frames exports with
the placeholder naming 37 and a numpy scalar converted to a plain int. -/
theorem C8_witness : ∃ out, prepare_for_export
      [("session_info", PyVal.dict []),
       ("video_frames", PyVal.list (List.replicate 37 PyVal.pynone)),
       ("frame_count", PyVal.npInt 37)] = Option.some out ∧
    dictFind out "video_frames" = Option.some (PyVal.str
      "Removed 37 frames to reduce file size") ∧
    numpy_free_kvs out = true ∧
    (∀ k : String, k ≠ "video_frames" →
      dictFind out k =
        (dictFind [("session_info", PyVal.dict []),
          ("video_frames", PyVal.list (List.replicate 37 PyVal.pynone)),
          ("frame_count", PyVal.npInt 37)] k).map convert_numpy) := by
  obtain ⟨out, h1, h2, h3, h4⟩ := C8_export_sanitization
    [("session_info", PyVal.dict []),
     ("video_frames", PyVal.list (List.replicate 37 PyVal.pynone)),
     ("frame_count", PyVal.npInt 37)] (List.replicate 37 PyVal.pynone)
    (by simp [dictFind])
  refine ⟨out, h1, ?_, h3, h4⟩
  rw [h2]
  rfl

end PyLab
